import Mathlib

/-!
Shallow embedding of `src/charm.py` of the canonical/mlflow-operators
repository (the `MlflowCharm` sidecar charm): status model, the error type
`ErrorWithStatus`, the data-fetch helpers, the Pebble layer construction,
the bucket validation/creation logic and the top-level reconciliation
handler `_on_event`, together with the `get-minio-password` action handler.

External collaborators (the Juju model, relation databags, the Pebble
container, the S3 SDK) are modelled as explicit inputs: each reconciliation
pass is a pure function from the inputs it reads and an initial world state
to a final world state, a trace of side effects, and an optional uncaught
exception.
-/

namespace Mlflow

/-- The kinds of Juju unit status used by the charm
(`ActiveStatus`, `WaitingStatus`, `BlockedStatus`, `MaintenanceStatus`). -/
inductive StatusKind where
  | active
  | waiting
  | blocked
  | maintenance
deriving DecidableEq, Repr

/-- A unit status: a kind together with its human-readable message. -/
structure Status where
  kind : StatusKind
  message : String
deriving DecidableEq, Repr

/-- The exceptions that can arise in the reconciliation pass:
`ErrorWithStatus` (from charmed_kubeflow_chisme) carrying a message and the
status class to translate to, Python's `ValueError` (raised by tuple
unpacking of `str.split`), and Python's `AttributeError` (raised by an
attribute lookup that fails). -/
inductive CharmError where
  | errorWithStatus (message : String) (kind : StatusKind)
  | valueError (message : String)
  | attributeError (attr : String)
deriving DecidableEq, Repr

/-- `err.status` for an `ErrorWithStatus`: the carried status class applied
to the message. Other exceptions have no status. -/
def CharmError.status : CharmError → Option Status
  | .errorWithStatus m k => some ⟨k, m⟩
  | .valueError _ => none
  | .attributeError _ => none

/-- The object-storage relation data unpacked by `_get_object_storage_data`
(field names as in the databag: `service`, `namespace`, `port`,
`access-key`, `secret-key`, `secure`). -/
structure ObjectStorageData where
  service : String
  ns : String
  port : String
  accessKey : String
  secretKey : String
  secure : Bool
deriving DecidableEq, Repr

/-- One value of `self.database.fetch_relation_data()`: the fields
`_get_relational_db_data` reads from a non-empty databag. -/
structure DbRelUnitData where
  endpoints : String
  username : String
  password : String
deriving DecidableEq, Repr

/-- The dictionary built and returned by `_get_relational_db_data`. -/
structure DbData where
  host : String
  port : String
  username : String
  password : String
deriving DecidableEq, Repr

/-- The charm config options the reconciliation pass reads. -/
structure Config where
  mlflow_port : String
  default_artifact_root : String
  create_default_artifact_root_if_missing : Bool
deriving DecidableEq, Repr

/-- The result of `get_interfaces(self)` when it does not raise:
the `object-storage` interface data (none when the relation is absent or
`get_data()` is empty) and whether the `secrets` / `pod-defaults`
relations are present and truthy. -/
structure Interfaces where
  objectStorage : Option ObjectStorageData
  secretsRelation : Bool
  podDefaultsRelation : Bool
deriving DecidableEq, Repr

/-- Outcome of the `get_interfaces(self)` call made by `_get_interfaces`:
either the interfaces object, or one of the two exceptions raised by the
serialized-data-interface library. -/
inductive InterfacesResult where
  | ok (i : Interfaces)
  | noVersionsListed (msg : String)
  | noCompatibleVersions (msg : String)
deriving DecidableEq, Repr

/-- One Pebble service configuration, as built by `_charmed_mlflow_layer`. -/
structure ServiceSpec where
  override : String
  summary : String
  command : String
  startup : String
  environment : List (String × String)
deriving DecidableEq, Repr

/-- The services map of a Pebble layer or plan (association list keyed by
service name). -/
def Services : Type := List (String × ServiceSpec)
deriving instance DecidableEq, Repr for Services

/-- Observable side effects of a reconciliation pass on the outside world
(container operations, bucket creation, relation data sends). -/
inductive Effect where
  | createBucket (name : String)
  | addLayer (label : String) (services : Services)
  | replan
  | sendManifests (relation : String)
deriving DecidableEq, Repr

/-- Mutable world state threaded through a pass: the Pebble plan's services
(as returned by `container.get_plan()`), the unit status, and the set of
buckets created so far in the external object store. -/
structure World where
  planServices : Services
  status : Status
  createdBuckets : List String
deriving DecidableEq, Repr

/-- All inputs a single `_on_event` reconciliation pass reads from its
environment: leadership, the interfaces call outcome, the relational-db
relation and its databag values (`none` models an empty databag value),
the results of the two S3 SDK calls (`validate_s3_bucket_name` from
`services.s3` and `check_if_bucket_accessible`), whether
`create_bucket` and `replan` raise (carrying the exception text), and
the charm config. -/
structure Inputs where
  isLeader : Bool
  interfaces : InterfacesResult
  dbRelationEstablished : Bool
  dbRelationValues : List (Option DbRelUnitData)
  bucketNameValid : Bool
  bucketAccessible : Bool
  createBucketError : Option String
  replanError : Option String
  config : Config
deriving DecidableEq, Repr

/-- `self._database_name` — fixed in `__init__`. -/
def databaseName : String := "mlflow"

/-- `METRICS_PATH` module constant. -/
def METRICS_PATH : String := "/metrics"

/-- `self._container_name` — fixed in `__init__`. -/
def containerName : String := "mlflow-server"

/-- `_check_leader`: raise `ErrorWithStatus("Waiting for leadership",
WaitingStatus)` unless the unit is leader. -/
def checkLeader (isLeader : Bool) : Except CharmError Unit :=
  if isLeader then .ok ()
  else .error (.errorWithStatus "Waiting for leadership" .waiting)

/-- `_get_interfaces`: wrap the two library exceptions into
`ErrorWithStatus` with `WaitingStatus` / `BlockedStatus` respectively. -/
def getInterfaces : InterfacesResult → Except CharmError Interfaces
  | .ok i => .ok i
  | .noVersionsListed m => .error (.errorWithStatus m .waiting)
  | .noCompatibleVersions m => .error (.errorWithStatus m .blocked)

/-- `_get_object_storage_data`: missing or empty object-storage data raises
an `ErrorWithStatus` with `WaitingStatus`. -/
def getObjectStorageData : Option ObjectStorageData → Except CharmError ObjectStorageData
  | some d => .ok d
  | none => .error (.errorWithStatus "Waiting for object-storage relation data" .waiting)

/-- Split a character list at every `':'`, keeping empty pieces — the
semantics of Python's `str.split(":")`. -/
def splitOnColon : List Char → List (List Char)
  | [] => [[]]
  | c :: rest =>
    if c = ':' then [] :: splitOnColon rest
    else
      match splitOnColon rest with
      | h :: t => (c :: h) :: t
      | [] => [[c]]

/-- `s.split(":")` on strings. -/
def splitColon (s : String) : List String :=
  (splitOnColon s.data).map String.mk

/-- The tuple unpacking `host, port = val["endpoints"].split(":")`:
succeeds exactly when the split yields two pieces, otherwise raises a plain
`ValueError` (not an `ErrorWithStatus`). -/
def splitEndpoints (s : String) : Except CharmError (String × String) :=
  match splitColon s with
  | [h, p] => .ok (h, p)
  | parts =>
    if parts.length < 2 then
      .error (.valueError "not enough values to unpack (expected 2, got 1)")
    else
      .error (.valueError "too many values to unpack (expected 2)")

/-- The `for val in data.values(): if not val: continue` loop: the first
non-empty databag value, if any. -/
def firstNonEmpty : List (Option DbRelUnitData) → Option DbRelUnitData
  | [] => none
  | none :: rest => firstNonEmpty rest
  | some v :: _ => some v

/-- `_get_relational_db_data`. -/
def getRelationalDbData (established : Bool) (vals : List (Option DbRelUnitData)) :
    Except CharmError DbData :=
  if ¬ established then
    .error (.errorWithStatus "Please add relation to the database" .blocked)
  else
    match firstNonEmpty vals with
    | some val =>
      match splitEndpoints val.endpoints with
      | .ok (host, port) => .ok ⟨host, port, val.username, val.password⟩
      | .error e => .error e
    | none =>
      .error (.errorWithStatus "Waiting for relational-db relation data" .waiting)

/-- `_get_env_vars`: the environment dictionary, in source order. -/
def getEnvVars (db : DbData) (os : ObjectStorageData) : List (String × String) :=
  let endpointUrl := "http://" ++ os.service ++ "." ++ os.ns ++ ":" ++ os.port
  [ ("MLFLOW_S3_ENDPOINT_URL", endpointUrl)
  , ("AWS_ENDPOINT_URL", endpointUrl)
  , ("AWS_ACCESS_KEY_ID", os.accessKey)
  , ("AWS_SECRET_ACCESS_KEY", os.secretKey)
  , ("USE_SSL", if os.secure then "true" else "false")
  , ("DB_ROOT_PASSWORD", db.password)
  , ("MLFLOW_TRACKING_URI",
      "mysql+pymysql://" ++ db.username ++ ":" ++ db.password ++ "@"
        ++ db.host ++ ":" ++ db.port ++ "/" ++ databaseName)
  ]

/-- The command string of `_charmed_mlflow_layer` (Python adjacent string
literals concatenated). -/
def mlflowCommand (port artifactRoot : String) : String :=
  "mlflow server --host 0.0.0.0 --port " ++ port
    ++ " --backend-store-uri $(MLFLOW_TRACKING_URI) --default-artifact-root s3://"
    ++ artifactRoot ++ "/ --expose-prometheus " ++ METRICS_PATH

/-- `_charmed_mlflow_layer`: the services map of the built layer. -/
def charmedMlflowLayer (envVars : List (String × String))
    (defaultArtifactRoot port : String) : Services :=
  [ (containerName,
     { override := "replace"
     , summary := "Entrypoint of mlflow-server image"
     , command := mlflowCommand port defaultArtifactRoot
     , startup := "enabled"
     , environment := envVars }) ]

/-- `_create_default_s3_bucket`: any exception from
`s3_wrapper.create_bucket` is wrapped into an `ErrorWithStatus` with
`BlockedStatus` (note the source's doubled space and unclosed quote). -/
def createDefaultS3Bucket (createError : Option String) : Except CharmError Unit :=
  match createError with
  | none => .ok ()
  | some e =>
    .error (.errorWithStatus
      ("Error with default S3 artifact store - bucket not accessible or cannot be created.  Caught error: '" ++ e)
      .blocked)

/-- `_validate_default_s3_bucket_name_and_access`: name validity first,
then accessibility against the
`create_default_artifact_root_if_missing` flag. -/
def validateDefaultS3BucketNameAndAccess (nameValid accessible flag : Bool)
    (bucketName : String) : Except CharmError Bool :=
  if ¬ nameValid then
    .error (.errorWithStatus
      ("Invalid value for config default_artifact_root '" ++ bucketName
        ++ "' - value must be a valid S3 bucket name")
      .blocked)
  else if ¬ accessible ∧ ¬ flag then
    .error (.errorWithStatus
      "Error with default S3 artifact store - bucket not accessible or does not exist. Set create_default_artifact_root_if_missing=True to automatically create a missing default bucket"
      .blocked)
  else if ¬ accessible ∧ flag then
    .ok false
  else
    .ok true

/-- `_update_layer`: diff the desired layer's services against the current
plan's services; when they differ, set maintenance status, add the layer
(which updates the plan) and replan, wrapping a `ChangeError` from replan
into a blocked `ErrorWithStatus`. Returns the new world, the container
side effects performed, and the error raised, if any. -/
def updateLayer (cfg : Config) (envs : List (String × String)) (root : String)
    (replanError : Option String) (w : World) :
    World × List Effect × Option CharmError :=
  if w.planServices = charmedMlflowLayer envs root cfg.mlflow_port then
    (w, [], none)
  else
    match replanError with
    | none =>
      ({ w with status := ⟨.maintenance, "Applying new pebble layer"⟩
              , planServices := charmedMlflowLayer envs root cfg.mlflow_port },
       [.addLayer containerName (charmedMlflowLayer envs root cfg.mlflow_port), .replan],
       none)
    | some e =>
      ({ w with status := ⟨.maintenance, "Applying new pebble layer"⟩
              , planServices := charmedMlflowLayer envs root cfg.mlflow_port },
       [.addLayer containerName (charmedMlflowLayer envs root cfg.mlflow_port)],
       some (.errorWithStatus ("Failed to replan with error: " ++ e) .blocked))

/-- `_send_manifests`: sends only when the relation is in the interfaces
object and truthy. -/
def sendManifestsEffects (present : Bool) (relation : String) : List Effect :=
  if present then [.sendManifests relation] else []

/-- The tail of `_on_event`'s `try` block after the bucket step: the
`_update_layer` call followed by the two `_send_manifests` calls.
`effs1` are the side effects already performed by the bucket step. -/
def afterBucket (inp : Inputs) (interfaces : Interfaces) (envs : List (String × String))
    (bucketName : String) (w1 : World) (effs1 : List Effect) :
    World × List Effect × Option CharmError :=
  match updateLayer inp.config envs bucketName inp.replanError w1 with
  | (w2, effs2, some e) => (w2, effs1 ++ effs2, some e)
  | (w2, effs2, none) =>
    (w2,
     effs1 ++ effs2
       ++ sendManifestsEffects interfaces.secretsRelation "secrets"
       ++ sendManifestsEffects interfaces.podDefaultsRelation "pod-defaults",
     none)

/-- The body of `_on_event`'s `try` block: the guarded sequential pipeline,
returning the world reached, the side-effect trace, and the exception
raised (if any) at the point it was raised. -/
def onEventInner (inp : Inputs) (w : World) : World × List Effect × Option CharmError :=
  match checkLeader inp.isLeader with
  | .error e => (w, [], some e)
  | .ok _ =>
  match getInterfaces inp.interfaces with
  | .error e => (w, [], some e)
  | .ok interfaces =>
  match getObjectStorageData interfaces.objectStorage with
  | .error e => (w, [], some e)
  | .ok osData =>
  match getRelationalDbData inp.dbRelationEstablished inp.dbRelationValues with
  | .error e => (w, [], some e)
  | .ok dbData =>
  match validateDefaultS3BucketNameAndAccess inp.bucketNameValid inp.bucketAccessible
      inp.config.create_default_artifact_root_if_missing inp.config.default_artifact_root with
  | .error e => (w, [], some e)
  | .ok validated =>
  if validated then
    afterBucket inp interfaces (getEnvVars dbData osData)
      inp.config.default_artifact_root w []
  else
    match createDefaultS3Bucket inp.createBucketError with
    | .error e => (w, [], some e)
    | .ok _ =>
      afterBucket inp interfaces (getEnvVars dbData osData)
        inp.config.default_artifact_root
        { w with createdBuckets := w.createdBuckets ++ [inp.config.default_artifact_root] }
        [.createBucket inp.config.default_artifact_root]

/-- The observable result of one `_on_event` invocation. -/
structure PassResult where
  world : World
  effects : List Effect
  uncaught : Option CharmError
deriving DecidableEq, Repr

/-- `_on_event`: run the pipeline; an `ErrorWithStatus` is caught and its
status becomes the unit status; success sets `ActiveStatus()`; any other
exception escapes the handler uncaught. -/
def onEvent (inp : Inputs) (w : World) : PassResult :=
  match onEventInner inp w with
  | (w1, effs, none) => ⟨{ w1 with status := ⟨.active, ""⟩ }, effs, none⟩
  | (w1, effs, some (.errorWithStatus m k)) => ⟨{ w1 with status := ⟨k, m⟩ }, effs, none⟩
  | (w1, effs, some e) => ⟨w1, effs, some e⟩

/-- The instance attributes ever assigned on `MlflowCharm` objects in
`src/charm.py` (from `__init__`, `_create_service`, and the class-level
`container` property), plus those supplied by the `ops` base class
`CharmBase`. -/
def mlflowCharmAttrs : List String :=
  [ "logger", "_port", "_container_name", "_database_name", "_container"
  , "database", "prometheus_provider", "_node_port", "service_patcher"
  , "container"
  , "framework", "model", "unit", "app", "config", "on", "meta", "charm_dir" ]

/-- Outcome of an action handler invocation: `event.set_results`,
`event.fail`, or an exception escaping the handler. -/
inductive ActionOutcome where
  | setResults (results : List (String × String))
  | failed (msg : String)
  | uncaught (e : CharmError)
deriving DecidableEq, Repr

/-- `_on_get_minio_password`: reads `self.grafana_service.is_ready`, then
either fails the event, or reports that the password was changed, or
returns the admin password. An attribute read on a name not defined on the
instance raises `AttributeError`. -/
def onGetMinioPassword (attrs : List String) (grafanaReady passwordChanged : Bool)
    (adminPassword : String) : ActionOutcome :=
  if ¬ attrs.contains "grafana_service" then
    .uncaught (.attributeError "grafana_service")
  else if ¬ grafanaReady then
    .failed "Grafana is not reachable yet. Please try again in a few minutes"
  else if passwordChanged then
    .setResults [("admin-password", "Admin password has been changed by an administrator")]
  else
    .setResults [("admin-password", adminPassword)]

/-! Concrete sample data, used to instantiate theorems with hypotheses. -/

/-- A sample object-storage relation payload. -/
def sampleOs : ObjectStorageData := ⟨"minio", "kubeflow", "9000", "AK", "SK", true⟩

/-- A sample charm config. -/
def sampleCfg : Config := ⟨"5000", "mlflow", true⟩

/-- A sample relational-db databag value. -/
def sampleVal : DbRelUnitData := ⟨"db-host:3306", "admin", "pw"⟩

/-- Sample inputs on which the whole reconciliation pass succeeds. -/
def sampleInputs : Inputs :=
  { isLeader := true
  , interfaces := .ok ⟨some sampleOs, true, true⟩
  , dbRelationEstablished := true
  , dbRelationValues := [none, some sampleVal]
  , bucketNameValid := true
  , bucketAccessible := false
  , createBucketError := none
  , replanError := none
  , config := sampleCfg }

/-- A sample initial world: empty plan, arbitrary prior status, no buckets. -/
def w0 : World := ⟨[], ⟨.maintenance, "unset"⟩, []⟩

/-! Helper lemmas about the individual steps. -/

theorem checkLeader_ok_inv (b : Bool) (u : Unit) (h : checkLeader b = .ok u) :
    b = true := by
  cases b
  · simp [checkLeader] at h
  · rfl

theorem getInterfaces_ok_inv (r : InterfacesResult) (i : Interfaces)
    (h : getInterfaces r = .ok i) : r = .ok i := by
  cases r with
  | ok j => simpa [getInterfaces] using h
  | noVersionsListed m => simp [getInterfaces] at h
  | noCompatibleVersions m => simp [getInterfaces] at h

theorem getObjectStorageData_ok_inv (o : Option ObjectStorageData) (d : ObjectStorageData)
    (h : getObjectStorageData o = .ok d) : o = some d := by
  cases o with
  | some x => simpa [getObjectStorageData] using h
  | none => simp [getObjectStorageData] at h

theorem splitOnColon_ne_nil (l : List Char) : splitOnColon l ≠ [] := by
  induction l with
  | nil => simp [splitOnColon]
  | cons c rest ih =>
    simp only [splitOnColon]
    split
    · simp
    · split
      · simp
      · simp

theorem splitOnColon_length (l : List Char) :
    (splitOnColon l).length = l.count ':' + 1 := by
  induction l with
  | nil => simp [splitOnColon]
  | cons c rest ih =>
    simp only [splitOnColon]
    split
    · rename_i hc
      subst hc
      simp [List.count_cons, ih]
    · rename_i hc
      split
      · rename_i h' t heq
        have := ih
        rw [heq] at this
        simp only [List.length_cons] at this ⊢
        rw [List.count_cons]
        simp [hc]
        omega
      · rename_i heq
        exact absurd heq (splitOnColon_ne_nil rest)

theorem splitColon_length (s : String) :
    (splitColon s).length = s.data.count ':' + 1 := by
  simp [splitColon, splitOnColon_length]

theorem splitEndpoints_error_shape (s : String) (e : CharmError)
    (h : splitEndpoints s = .error e) : ∃ m, e = .valueError m := by
  unfold splitEndpoints at h
  split at h
  · simp at h
  · split at h
    · exact ⟨_, (Except.error.injEq _ _).mp h.symm⟩
    · exact ⟨_, (Except.error.injEq _ _).mp h.symm⟩

theorem splitEndpoints_error_of_count (s : String) (h : s.data.count ':' ≠ 1) :
    ∃ m, splitEndpoints s = .error (.valueError m) := by
  have hlen : (splitColon s).length ≠ 2 := by
    rw [splitColon_length]; omega
  unfold splitEndpoints
  split
  · rename_i a b heq
    rw [heq] at hlen
    simp at hlen
  · split
    · exact ⟨_, rfl⟩
    · exact ⟨_, rfl⟩

theorem getRelationalDbData_ok_inv (est : Bool) (vals : List (Option DbRelUnitData))
    (db : DbData) (h : getRelationalDbData est vals = .ok db) :
    est = true ∧ ∃ val, firstNonEmpty vals = some val ∧
      splitEndpoints val.endpoints = .ok (db.host, db.port) ∧
      db.username = val.username ∧ db.password = val.password := by
  unfold getRelationalDbData at h
  split at h
  · simp at h
  · rename_i hest
    have hest' : est = true := by
      cases est
      · exact absurd (by simp) hest
      · rfl
    refine ⟨hest', ?_⟩
    split at h
    · rename_i val heq
      split at h
      · rename_i host port heq2
        refine ⟨val, heq, ?_⟩
        cases h
        exact ⟨heq2, rfl, rfl⟩
      · simp at h
    · simp at h

theorem updateLayer_noop (cfg : Config) (envs : List (String × String)) (root : String)
    (rpe : Option String) (w : World)
    (h : w.planServices = charmedMlflowLayer envs root cfg.mlflow_port) :
    updateLayer cfg envs root rpe w = (w, [], none) := by
  unfold updateLayer
  rw [if_pos h]

theorem updateLayer_ok_inv (cfg : Config) (envs : List (String × String)) (root : String)
    (rpe : Option String) (w w2 : World) (effs2 : List Effect)
    (h : updateLayer cfg envs root rpe w = (w2, effs2, none)) :
    w2.planServices = charmedMlflowLayer envs root cfg.mlflow_port ∧
    w2.createdBuckets = w.createdBuckets := by
  unfold updateLayer at h
  split at h
  · rename_i heq
    cases h
    exact ⟨heq, rfl⟩
  · split at h
    · cases h
      exact ⟨rfl, rfl⟩
    · simp at h

theorem updateLayer_error_inv (cfg : Config) (envs : List (String × String)) (root : String)
    (rpe : Option String) (w w2 : World) (effs2 : List Effect) (e : CharmError)
    (h : updateLayer cfg envs root rpe w = (w2, effs2, some e)) :
    ∃ msg, rpe = some msg ∧
      e = .errorWithStatus ("Failed to replan with error: " ++ msg) .blocked ∧
      effs2 = [.addLayer containerName (charmedMlflowLayer envs root cfg.mlflow_port)] ∧
      w2.createdBuckets = w.createdBuckets := by
  unfold updateLayer at h
  split at h
  · simp at h
  · cases hrpe : rpe with
    | none => rw [hrpe] at h; simp at h
    | some msg =>
      rw [hrpe] at h
      cases h
      exact ⟨msg, rfl, rfl, rfl, rfl⟩

theorem afterBucket_ok_inv (inp : Inputs) (i : Interfaces) (envs : List (String × String))
    (root : String) (w1 w2 : World) (effs1 effs : List Effect)
    (h : afterBucket inp i envs root w1 effs1 = (w2, effs, none)) :
    w2.planServices = charmedMlflowLayer envs root inp.config.mlflow_port ∧
    w2.createdBuckets = w1.createdBuckets := by
  unfold afterBucket at h
  split at h
  · rename_i heq
    simp at h
  · rename_i w2' effs2 heq
    cases h
    exact updateLayer_ok_inv _ _ _ _ _ _ _ heq

theorem afterBucket_error_inv (inp : Inputs) (i : Interfaces) (envs : List (String × String))
    (root : String) (w1 w2 : World) (effs1 effs : List Effect) (e : CharmError)
    (h : afterBucket inp i envs root w1 effs1 = (w2, effs, some e)) :
    ∃ msg, inp.replanError = some msg ∧
      e = .errorWithStatus ("Failed to replan with error: " ++ msg) .blocked ∧
      effs = effs1 ++ [.addLayer containerName (charmedMlflowLayer envs root inp.config.mlflow_port)] ∧
      w2.createdBuckets = w1.createdBuckets := by
  unfold afterBucket at h
  split at h
  · rename_i w2' effs2 e' heq
    cases h
    obtain ⟨msg, h1, h2, h3, h4⟩ := updateLayer_error_inv _ _ _ _ _ _ _ _ heq
    exact ⟨msg, h1, h2, by rw [h3], h4⟩
  · simp at h

/-- `afterBucket` on a world whose plan already equals the desired layer:
the `_update_layer` diff is equal, so no container operation happens and
only the manifest sends are appended. -/
theorem afterBucket_already_converged (inp : Inputs) (i : Interfaces)
    (envs : List (String × String)) (root : String) (w1 : World) (effs1 : List Effect)
    (h : w1.planServices = charmedMlflowLayer envs root inp.config.mlflow_port) :
    afterBucket inp i envs root w1 effs1 =
      (w1,
       effs1 ++ sendManifestsEffects i.secretsRelation "secrets"
         ++ sendManifestsEffects i.podDefaultsRelation "pod-defaults",
       none) := by
  unfold afterBucket
  rw [updateLayer_noop _ _ _ _ _ h]
  simp

theorem createDefaultS3Bucket_ok_inv (cbe : Option String) (u : Unit)
    (h : createDefaultS3Bucket cbe = .ok u) : cbe = none := by
  cases cbe with
  | none => rfl
  | some e => simp [createDefaultS3Bucket] at h

/-- Inversion of a successful pass: leadership held, every fetch produced
data, the bucket step succeeded, and the final plan is exactly the desired
layer computed from the fetched data. -/
theorem onEventInner_ok_inv (inp : Inputs) (w w1 : World) (effs : List Effect)
    (h : onEventInner inp w = (w1, effs, none)) :
    inp.isLeader = true ∧
    ∃ i os db validated,
      inp.interfaces = .ok i ∧
      i.objectStorage = some os ∧
      getRelationalDbData inp.dbRelationEstablished inp.dbRelationValues = .ok db ∧
      validateDefaultS3BucketNameAndAccess inp.bucketNameValid inp.bucketAccessible
        inp.config.create_default_artifact_root_if_missing
        inp.config.default_artifact_root = .ok validated ∧
      (validated = false → inp.createBucketError = none) ∧
      w1.planServices =
        charmedMlflowLayer (getEnvVars db os)
          inp.config.default_artifact_root inp.config.mlflow_port ∧
      (w1.createdBuckets = w.createdBuckets ∨
       w1.createdBuckets = w.createdBuckets ++ [inp.config.default_artifact_root]) := by
  unfold onEventInner at h
  split at h
  · simp at h
  · rename_i u hL
    refine ⟨checkLeader_ok_inv _ _ hL, ?_⟩
    split at h
    · simp at h
    · rename_i ifs hI
      split at h
      · simp at h
      · rename_i os hOs
        split at h
        · simp at h
        · rename_i db hDb
          split at h
          · simp at h
          · rename_i validated hV
            refine ⟨ifs, os, db, validated,
              getInterfaces_ok_inv _ _ hI, getObjectStorageData_ok_inv _ _ hOs, hDb, hV, ?_⟩
            split at h
            · rename_i hval
              obtain ⟨hplan, hbuckets⟩ := afterBucket_ok_inv _ _ _ _ _ _ _ _ h
              exact ⟨fun hf => absurd hval (by rw [hf]; simp), hplan, Or.inl hbuckets⟩
            · split at h
              · simp at h
              · rename_i u2 hC
                obtain ⟨hplan, hbuckets⟩ := afterBucket_ok_inv _ _ _ _ _ _ _ _ h
                exact ⟨fun _ => createDefaultS3Bucket_ok_inv _ _ hC, hplan,
                  Or.inr hbuckets⟩

theorem checkLeader_error_inv (b : Bool) (e : CharmError)
    (h : checkLeader b = .error e) :
    e = .errorWithStatus "Waiting for leadership" .waiting := by
  cases b
  · simpa [checkLeader] using h.symm
  · simp [checkLeader] at h

theorem getInterfaces_error_inv (r : InterfacesResult) (e : CharmError)
    (h : getInterfaces r = .error e) :
    (∃ m, e = .errorWithStatus m .waiting) ∨ (∃ m, e = .errorWithStatus m .blocked) := by
  cases r with
  | ok i => simp [getInterfaces] at h
  | noVersionsListed m => exact Or.inl ⟨m, ((Except.error.injEq _ _).mp h).symm⟩
  | noCompatibleVersions m => exact Or.inr ⟨m, ((Except.error.injEq _ _).mp h).symm⟩

theorem getObjectStorageData_error_inv (o : Option ObjectStorageData) (e : CharmError)
    (h : getObjectStorageData o = .error e) :
    e = .errorWithStatus "Waiting for object-storage relation data" .waiting := by
  cases o with
  | some d => simp [getObjectStorageData] at h
  | none => simpa [getObjectStorageData] using h.symm

theorem getRelationalDbData_error_inv (est : Bool) (vals : List (Option DbRelUnitData))
    (e : CharmError) (h : getRelationalDbData est vals = .error e) :
    (∃ m, e = .valueError m) ∨
    (∃ m, e = .errorWithStatus m .waiting) ∨
    (∃ m, e = .errorWithStatus m .blocked) := by
  unfold getRelationalDbData at h
  split at h
  · exact Or.inr (Or.inr ⟨_, ((Except.error.injEq _ _).mp h).symm⟩)
  · split at h
    · split at h
      · simp at h
      · rename_i e' heq
        have := splitEndpoints_error_shape _ _ heq
        obtain ⟨m, rfl⟩ := this
        exact Or.inl ⟨m, ((Except.error.injEq _ _).mp h).symm⟩
    · exact Or.inr (Or.inl ⟨_, ((Except.error.injEq _ _).mp h).symm⟩)

theorem validate_error_inv (nv acc flag : Bool) (name : String) (e : CharmError)
    (h : validateDefaultS3BucketNameAndAccess nv acc flag name = .error e) :
    ∃ m, e = .errorWithStatus m .blocked := by
  unfold validateDefaultS3BucketNameAndAccess at h
  split at h
  · exact ⟨_, ((Except.error.injEq _ _).mp h).symm⟩
  · split at h
    · exact ⟨_, ((Except.error.injEq _ _).mp h).symm⟩
    · split at h
      · simp at h
      · simp at h

theorem createDefaultS3Bucket_error_inv (cbe : Option String) (e : CharmError)
    (h : createDefaultS3Bucket cbe = .error e) :
    ∃ m, e = .errorWithStatus m .blocked := by
  cases cbe with
  | none => simp [createDefaultS3Bucket] at h
  | some msg => exact ⟨_, ((Except.error.injEq _ _).mp h).symm⟩

/-- Inversion of a failing pass: the exception is either a plain
`ValueError` from endpoint unpacking or an `ErrorWithStatus` carrying a
waiting or blocked status; no manifest send happened; a layer add happened
only when the failing step was the replan itself; and the created-bucket
set either is unchanged or has gained exactly the default bucket. -/
theorem onEventInner_error_inv (inp : Inputs) (w w1 : World) (effs : List Effect)
    (e : CharmError) (h : onEventInner inp w = (w1, effs, some e)) :
    ((∃ m, e = .valueError m) ∨
     (∃ m, e = .errorWithStatus m .waiting) ∨
     (∃ m, e = .errorWithStatus m .blocked)) ∧
    (∀ r, Effect.sendManifests r ∉ effs) ∧
    (∀ l s, Effect.addLayer l s ∈ effs →
       ∃ msg, inp.replanError = some msg ∧
         e = .errorWithStatus ("Failed to replan with error: " ++ msg) .blocked) ∧
    (w1.createdBuckets = w.createdBuckets ∨
     w1.createdBuckets = w.createdBuckets ++ [inp.config.default_artifact_root]) := by
  unfold onEventInner at h
  split at h
  · rename_i e0 hL
    cases h
    refine ⟨Or.inr (Or.inl ⟨_, checkLeader_error_inv _ _ hL⟩), by simp, by simp, Or.inl rfl⟩
  · rename_i u hL
    split at h
    · rename_i e0 hI
      cases h
      refine ⟨?_, by simp, by simp, Or.inl rfl⟩
      rcases getInterfaces_error_inv _ _ hI with h' | h'
      · exact Or.inr (Or.inl h')
      · exact Or.inr (Or.inr h')
    · rename_i ifs hI
      split at h
      · rename_i e0 hOs
        cases h
        exact ⟨Or.inr (Or.inl ⟨_, getObjectStorageData_error_inv _ _ hOs⟩),
          by simp, by simp, Or.inl rfl⟩
      · rename_i os hOs
        split at h
        · rename_i e0 hDb
          cases h
          exact ⟨getRelationalDbData_error_inv _ _ _ hDb, by simp, by simp, Or.inl rfl⟩
        · rename_i db hDb
          split at h
          · rename_i e0 hV
            cases h
            exact ⟨Or.inr (Or.inr (validate_error_inv _ _ _ _ _ hV)),
              by simp, by simp, Or.inl rfl⟩
          · rename_i validated hV
            split at h
            · obtain ⟨msg, h1, h2, h3, h4⟩ := afterBucket_error_inv _ _ _ _ _ _ _ _ _ h
              subst h3
              refine ⟨Or.inr (Or.inr ⟨_, h2⟩), by simp, ?_, Or.inl h4⟩
              intro l s _
              exact ⟨msg, h1, h2⟩
            · split at h
              · rename_i e0 hC
                cases h
                exact ⟨Or.inr (Or.inr (createDefaultS3Bucket_error_inv _ _ hC)),
                  by simp, by simp, Or.inl rfl⟩
              · rename_i u2 hC
                obtain ⟨msg, h1, h2, h3, h4⟩ := afterBucket_error_inv _ _ _ _ _ _ _ _ _ h
                subst h3
                refine ⟨Or.inr (Or.inr ⟨_, h2⟩), by simp, ?_, Or.inr h4⟩
                intro l s _
                exact ⟨msg, h1, h2⟩

/-! Claim theorems. -/

/-- C7: for every reconciliation pass where the unit does not hold
leadership, the handler aborts before performing any side effect — no
effects, plan and created buckets unchanged — and the resulting unit
status is waiting ("Waiting for leadership"), regardless of all other
inputs (relations, config, image). -/
theorem c7_no_leadership_always_waiting (inp : Inputs) (w : World)
    (h : inp.isLeader = false) :
    onEvent inp w =
      ⟨{ w with status := ⟨.waiting, "Waiting for leadership"⟩ }, [], none⟩ := by
  have hInner : onEventInner inp w =
      (w, [], some (.errorWithStatus "Waiting for leadership" .waiting)) := by
    simp [onEventInner, checkLeader, h]
  simp [onEvent, hInner]

theorem c7_witness :
    ({ sampleInputs with isLeader := false } : Inputs).isLeader = false ∧
    onEvent { sampleInputs with isLeader := false } w0 =
      ⟨{ w0 with status := ⟨.waiting, "Waiting for leadership"⟩ }, [], none⟩ :=
  ⟨rfl, c7_no_leadership_always_waiting _ _ rfl⟩

/-- C2 (counterexample): with leadership, object-storage data available and
no database relation, the code sets a blocked status with message "Please
add relation to the database" — not a waiting status with message
"waiting for mysql relation data" as the claim states. -/
theorem c2_counterexample :
    (onEvent { sampleInputs with dbRelationEstablished := false } w0).world.status =
      ⟨.blocked, "Please add relation to the database"⟩ ∧
    (onEvent { sampleInputs with dbRelationEstablished := false } w0).world.status ≠
      ⟨.waiting, "waiting for mysql relation data"⟩ := by
  exact ⟨rfl, by decide⟩

/-- C2 (amended): for every reconciliation pass where the unit has
leadership, the interfaces fetch succeeds, object-storage data is present,
but no database relation is established, the resulting unit status is a
blocked status with the message "Please add relation to the database", and
no side effect is performed. -/
theorem c2_no_db_relation_blocked (inp : Inputs) (w : World) (i : Interfaces)
    (os : ObjectStorageData)
    (hL : inp.isLeader = true) (hI : inp.interfaces = .ok i)
    (hOs : i.objectStorage = some os)
    (hDb : inp.dbRelationEstablished = false) :
    (onEvent inp w).world.status = ⟨.blocked, "Please add relation to the database"⟩ ∧
    (onEvent inp w).effects = [] := by
  have hInner : onEventInner inp w =
      (w, [], some (.errorWithStatus "Please add relation to the database" .blocked)) := by
    simp [onEventInner, checkLeader, getInterfaces, getObjectStorageData,
      getRelationalDbData, hL, hI, hOs, hDb]
  constructor <;> simp [onEvent, hInner]

theorem c2_amended_witness :
    (onEvent { sampleInputs with dbRelationEstablished := false } w0).world.status =
      ⟨.blocked, "Please add relation to the database"⟩ ∧
    (onEvent { sampleInputs with dbRelationEstablished := false } w0).effects = [] :=
  c2_no_db_relation_blocked _ _ ⟨some sampleOs, true, true⟩ sampleOs rfl rfl rfl rfl

/-- C5: when a step of the pass raises an `ErrorWithStatus`, the top-level
handler catches it (nothing escapes), sets the unit status to the carried
status, performs no manifest send, performs a layer add only when the
failing step was the replan itself, and does not undo effects performed
earlier in the pass (the created-bucket set is only ever extended). -/
theorem c5_error_with_status_normalized (inp : Inputs) (w w1 : World)
    (effs : List Effect) (m : String) (k : StatusKind)
    (h : onEventInner inp w = (w1, effs, some (.errorWithStatus m k))) :
    onEvent inp w = ⟨{ w1 with status := ⟨k, m⟩ }, effs, none⟩ ∧
    (∀ r, Effect.sendManifests r ∉ effs) ∧
    (∀ l s, Effect.addLayer l s ∈ effs →
       ∃ msg, inp.replanError = some msg ∧
         m = "Failed to replan with error: " ++ msg) ∧
    (w1.createdBuckets = w.createdBuckets ∨
     w1.createdBuckets = w.createdBuckets ++ [inp.config.default_artifact_root]) := by
  obtain ⟨_, hMan, hAdd, hBuck⟩ := onEventInner_error_inv _ _ _ _ _ h
  refine ⟨by simp [onEvent, h], hMan, ?_, hBuck⟩
  intro l s hmem
  obtain ⟨msg, h1, h2⟩ := hAdd l s hmem
  injection h2 with hm hk
  exact ⟨msg, h1, hm⟩

theorem c5_witness :
    onEvent { sampleInputs with isLeader := false } w0 =
      ⟨{ w0 with status := ⟨.waiting, "Waiting for leadership"⟩ }, [], none⟩ ∧
    (∀ r, Effect.sendManifests r ∉ ([] : List Effect)) ∧
    (∀ l s, Effect.addLayer l s ∈ ([] : List Effect) →
       ∃ msg, ({ sampleInputs with isLeader := false } : Inputs).replanError = some msg ∧
         "Waiting for leadership" = "Failed to replan with error: " ++ msg) ∧
    (w0.createdBuckets = w0.createdBuckets ∨
     w0.createdBuckets = w0.createdBuckets
       ++ [({ sampleInputs with isLeader := false } : Inputs).config.default_artifact_root]) :=
  c5_error_with_status_normalized _ _ _ _ _ _ rfl

/-- C6: every anticipated failure (`ErrorWithStatus`) raised during a pass
carries a waiting, blocked or maintenance status kind, and the unit status
set by the handler is exactly the carried one — no other status kind. -/
theorem c6_error_status_kinds (inp : Inputs) (w w1 : World) (effs : List Effect)
    (m : String) (k : StatusKind)
    (h : onEventInner inp w = (w1, effs, some (.errorWithStatus m k))) :
    (k = .waiting ∨ k = .blocked ∨ k = .maintenance) ∧
    (onEvent inp w).world.status = ⟨k, m⟩ := by
  obtain ⟨hshape, -, -, -⟩ := onEventInner_error_inv _ _ _ _ _ h
  refine ⟨?_, by simp [onEvent, h]⟩
  rcases hshape with ⟨m', hv⟩ | ⟨m', hw⟩ | ⟨m', hb⟩
  · exact absurd hv (by simp)
  · injection hw with _ hk
    exact Or.inl hk
  · injection hb with _ hk
    exact Or.inr (Or.inl hk)

theorem c6_witness :
    ((StatusKind.waiting = .waiting ∨ StatusKind.waiting = .blocked ∨
      StatusKind.waiting = .maintenance) ∧
     (onEvent { sampleInputs with isLeader := false } w0).world.status =
       ⟨.waiting, "Waiting for leadership"⟩) :=
  c6_error_status_kinds { sampleInputs with isLeader := false } w0 w0 []
    "Waiting for leadership" .waiting rfl

/-- C10: when the first non-empty relational-db databag value has an
`endpoints` string whose colon count is not exactly one, the tuple
unpacking of `split(":")` raises a plain `ValueError`; it carries no
status, escapes `_on_event`'s `except ErrorWithStatus` entirely, and the
unit status is never set. -/
theorem c10_endpoints_colon_value_error (inp : Inputs) (w : World) (i : Interfaces)
    (os : ObjectStorageData) (val : DbRelUnitData)
    (hL : inp.isLeader = true) (hI : inp.interfaces = .ok i)
    (hOs : i.objectStorage = some os)
    (hDb : inp.dbRelationEstablished = true)
    (hVal : firstNonEmpty inp.dbRelationValues = some val)
    (hColons : val.endpoints.data.count ':' ≠ 1) :
    ∃ m, (onEvent inp w).uncaught = some (.valueError m) ∧
      (CharmError.valueError m).status = none ∧
      (onEvent inp w).world = w ∧
      (onEvent inp w).effects = [] := by
  obtain ⟨m, hsp⟩ := splitEndpoints_error_of_count _ hColons
  have hInner : onEventInner inp w = (w, [], some (.valueError m)) := by
    simp [onEventInner, checkLeader, getInterfaces, getObjectStorageData,
      getRelationalDbData, hL, hI, hOs, hDb, hVal, hsp]
  exact ⟨m, by simp [onEvent, hInner], rfl, by simp [onEvent, hInner],
    by simp [onEvent, hInner]⟩

theorem c10_witness :
    ∃ m,
      (onEvent { sampleInputs with dbRelationValues := [some ⟨"a:b:c", "u", "p"⟩] } w0).uncaught
        = some (.valueError m) ∧
      (CharmError.valueError m).status = none ∧
      (onEvent { sampleInputs with dbRelationValues := [some ⟨"a:b:c", "u", "p"⟩] } w0).world
        = w0 ∧
      (onEvent { sampleInputs with dbRelationValues := [some ⟨"a:b:c", "u", "p"⟩] } w0).effects
        = [] :=
  c10_endpoints_colon_value_error _ _ ⟨some sampleOs, true, true⟩ sampleOs
    ⟨"a:b:c", "u", "p"⟩ rfl rfl rfl rfl rfl (by decide)

/-- C4: the bucket check proceeds in order — an invalid name aborts with a
blocked status independently of any accessibility result; an accessible
bucket passes; an inaccessible bucket with the creation flag off aborts
blocked; an inaccessible bucket with the flag on requests creation; and a
failing creation call is wrapped into a caught blocked status rather than
escaping as a raw exception. -/
theorem c4_bucket_check_order :
    (∀ (name : String) (acc1 acc2 flag : Bool),
       validateDefaultS3BucketNameAndAccess false acc1 flag name =
         validateDefaultS3BucketNameAndAccess false acc2 flag name ∧
       validateDefaultS3BucketNameAndAccess false acc1 flag name =
         .error (.errorWithStatus
           ("Invalid value for config default_artifact_root '" ++ name
             ++ "' - value must be a valid S3 bucket name") .blocked)) ∧
    (∀ (name : String) (flag : Bool),
       validateDefaultS3BucketNameAndAccess true true flag name = .ok true) ∧
    (∀ name : String,
       validateDefaultS3BucketNameAndAccess true false false name =
         .error (.errorWithStatus
           "Error with default S3 artifact store - bucket not accessible or does not exist. Set create_default_artifact_root_if_missing=True to automatically create a missing default bucket"
           .blocked)) ∧
    (∀ name : String,
       validateDefaultS3BucketNameAndAccess true false true name = .ok false) ∧
    (∀ msg : String,
       createDefaultS3Bucket (some msg) =
         .error (.errorWithStatus
           ("Error with default S3 artifact store - bucket not accessible or cannot be created.  Caught error: '"
             ++ msg) .blocked)) ∧
    (∀ (inp : Inputs) (w : World) (i : Interfaces) (os : ObjectStorageData)
       (db : DbData) (msg : String),
       inp.isLeader = true → inp.interfaces = .ok i → i.objectStorage = some os →
       getRelationalDbData inp.dbRelationEstablished inp.dbRelationValues = .ok db →
       inp.bucketNameValid = true → inp.bucketAccessible = false →
       inp.config.create_default_artifact_root_if_missing = true →
       inp.createBucketError = some msg →
       (onEvent inp w).uncaught = none ∧
       (onEvent inp w).world.status =
         ⟨.blocked,
          "Error with default S3 artifact store - bucket not accessible or cannot be created.  Caught error: '"
            ++ msg⟩) := by
  refine ⟨?_, ?_, ?_, ?_, ?_, ?_⟩
  · intro name acc1 acc2 flag
    constructor <;> simp [validateDefaultS3BucketNameAndAccess]
  · intro name flag
    simp [validateDefaultS3BucketNameAndAccess]
  · intro name
    simp [validateDefaultS3BucketNameAndAccess]
  · intro name
    simp [validateDefaultS3BucketNameAndAccess]
  · intro msg
    rfl
  · intro inp w i os db msg hL hI hOs hDb hNV hBA hFlag hCBE
    have hInner : onEventInner inp w =
        (w, [],
         some (.errorWithStatus
           ("Error with default S3 artifact store - bucket not accessible or cannot be created.  Caught error: '"
             ++ msg) .blocked)) := by
      simp [onEventInner, checkLeader, getInterfaces, getObjectStorageData,
        validateDefaultS3BucketNameAndAccess, createDefaultS3Bucket,
        hL, hI, hOs, hDb, hNV, hBA, hFlag, hCBE]
    constructor <;> simp [onEvent, hInner]

theorem c4_witness :
    (validateDefaultS3BucketNameAndAccess false true true "Bad_Bucket" =
       validateDefaultS3BucketNameAndAccess false false true "Bad_Bucket" ∧
     validateDefaultS3BucketNameAndAccess false true true "Bad_Bucket" =
       .error (.errorWithStatus
         ("Invalid value for config default_artifact_root '" ++ "Bad_Bucket"
           ++ "' - value must be a valid S3 bucket name") .blocked)) ∧
    validateDefaultS3BucketNameAndAccess true true false "b" = .ok true ∧
    validateDefaultS3BucketNameAndAccess true false false "b" =
      .error (.errorWithStatus
        "Error with default S3 artifact store - bucket not accessible or does not exist. Set create_default_artifact_root_if_missing=True to automatically create a missing default bucket"
        .blocked) ∧
    validateDefaultS3BucketNameAndAccess true false true "b" = .ok false ∧
    createDefaultS3Bucket (some "boom") =
      .error (.errorWithStatus
        ("Error with default S3 artifact store - bucket not accessible or cannot be created.  Caught error: '"
          ++ "boom") .blocked) ∧
    ((onEvent { sampleInputs with createBucketError := some "boom" } w0).uncaught = none ∧
     (onEvent { sampleInputs with createBucketError := some "boom" } w0).world.status =
       ⟨.blocked,
        "Error with default S3 artifact store - bucket not accessible or cannot be created.  Caught error: '"
          ++ "boom"⟩) :=
  ⟨c4_bucket_check_order.1 "Bad_Bucket" true false true,
   c4_bucket_check_order.2.1 "b" false,
   c4_bucket_check_order.2.2.1 "b",
   c4_bucket_check_order.2.2.2.1 "b",
   c4_bucket_check_order.2.2.2.2.1 "boom",
   c4_bucket_check_order.2.2.2.2.2
     { sampleInputs with createBucketError := some "boom" } w0
     ⟨some sampleOs, true, true⟩ sampleOs ⟨"db-host", "3306", "admin", "pw"⟩ "boom"
     rfl rfl rfl rfl rfl rfl rfl rfl⟩

/-- C8 (code bug): every invocation of the `get-minio-password` action
handler looks up `self.grafana_service`, an attribute never assigned on
`MlflowCharm`, so the handler raises an uncaught `AttributeError` instead
of ever setting a result or failing the event gracefully. -/
theorem c8_get_minio_password_uncaught (grafanaReady passwordChanged : Bool)
    (pw : String) :
    onGetMinioPassword mlflowCharmAttrs grafanaReady passwordChanged pw =
      .uncaught (.attributeError "grafana_service") ∧
    "grafana_service" ∉ mlflowCharmAttrs := by
  have hm : "grafana_service" ∉ mlflowCharmAttrs := by decide
  exact ⟨by simp [onGetMinioPassword, hm], hm⟩

/-- Splitting the rendered command around the artifact-root flag. -/
theorem mlflowCommand_split (p r : String) :
    mlflowCommand p r =
      ("mlflow server --host 0.0.0.0 --port " ++ p
        ++ " --backend-store-uri $(MLFLOW_TRACKING_URI) ")
        ++ ("--default-artifact-root s3://" ++ r ++ "/")
        ++ " --expose-prometheus /metrics" := by
  unfold mlflowCommand METRICS_PATH
  simp only [String.append_assoc]
  congr 2

/-- C9: after every successful reconciliation pass, the applied plan holds
exactly one service whose command line is the tracking-server invocation
with the fixed flags and the metrics path, and it contains
`--default-artifact-root` immediately followed by `s3://<bucket>/` with
the bucket taken from the `default_artifact_root` config. -/
theorem c9_command_line (inp : Inputs) (w w1 : World) (effs : List Effect)
    (h : onEventInner inp w = (w1, effs, none)) :
    ∃ spec : ServiceSpec,
      w1.planServices = [(containerName, spec)] ∧
      spec.command =
        "mlflow server --host 0.0.0.0 --port " ++ inp.config.mlflow_port
          ++ " --backend-store-uri $(MLFLOW_TRACKING_URI) --default-artifact-root s3://"
          ++ inp.config.default_artifact_root ++ "/ --expose-prometheus " ++ METRICS_PATH ∧
      ∃ pre post, spec.command =
        pre ++ ("--default-artifact-root s3://" ++ inp.config.default_artifact_root ++ "/")
          ++ post := by
  obtain ⟨-, i, os, db, validated, -, -, -, -, -, hplan, -⟩ :=
    onEventInner_ok_inv _ _ _ _ h
  refine ⟨_, hplan, rfl, ?_⟩
  exact ⟨"mlflow server --host 0.0.0.0 --port " ++ inp.config.mlflow_port
      ++ " --backend-store-uri $(MLFLOW_TRACKING_URI) ",
    " --expose-prometheus /metrics", mlflowCommand_split _ _⟩

theorem c9_witness :
    ∃ spec : ServiceSpec,
      (onEventInner sampleInputs w0).1.planServices = [(containerName, spec)] ∧
      spec.command =
        "mlflow server --host 0.0.0.0 --port " ++ sampleInputs.config.mlflow_port
          ++ " --backend-store-uri $(MLFLOW_TRACKING_URI) --default-artifact-root s3://"
          ++ sampleInputs.config.default_artifact_root ++ "/ --expose-prometheus "
          ++ METRICS_PATH ∧
      ∃ pre post, spec.command =
        pre ++ ("--default-artifact-root s3://"
          ++ sampleInputs.config.default_artifact_root ++ "/") ++ post :=
  c9_command_line sampleInputs w0 (onEventInner sampleInputs w0).1
    (onEventInner sampleInputs w0).2.1 rfl

/-- C3 (counterexample): with a fully populated database relation whose
username is "admin", the computed MLFLOW_TRACKING_URI is
`mysql+pymysql://admin:pw@h:3306/mlflow`, which does not match the claimed
pattern `mysql+pymysql://root:<password>@<host>:<port>/<database>`
instantiated at the relation's own password/host/port for any database
name: the code interpolates the relation's username, not the literal
`root`. -/
theorem c3_counterexample :
    List.lookup "MLFLOW_TRACKING_URI"
        (getEnvVars ⟨"h", "3306", "admin", "pw"⟩ sampleOs) =
      some "mysql+pymysql://admin:pw@h:3306/mlflow" ∧
    ¬ ∃ dbName : String,
        "mysql+pymysql://admin:pw@h:3306/mlflow" =
          "mysql+pymysql://root:pw@h:3306/" ++ dbName := by
  refine ⟨rfl, ?_⟩
  rintro ⟨d, hd⟩
  have hdata := congrArg String.data hd
  rw [String.data_append] at hdata
  have h2 : ("mysql+pymysql://admin:pw@h:3306/mlflow").data.take 31 =
      ("mysql+pymysql://root:pw@h:3306/").data := by
    rw [hdata]
    exact List.take_left' (by decide)
  exact absurd h2 (by decide)

/-- C3 (amended): for every database relation data accepted by
`_get_relational_db_data`, the computed environment includes
MLFLOW_TRACKING_URI equal to
`mysql+pymysql://<username>:<password>@<host>:<port>/mlflow`, where
username and password come from the first non-empty relation databag
value, host and port from splitting its endpoints, and the database name
is the charm's fixed `"mlflow"` — not the literal `root` and not a
database name from the relation. -/
theorem c3_tracking_uri (os : ObjectStorageData) (est : Bool)
    (vals : List (Option DbRelUnitData)) (db : DbData)
    (h : getRelationalDbData est vals = .ok db) :
    ∃ val, firstNonEmpty vals = some val ∧
      db.username = val.username ∧ db.password = val.password ∧
      List.lookup "MLFLOW_TRACKING_URI" (getEnvVars db os) =
        some ("mysql+pymysql://" ++ val.username ++ ":" ++ val.password ++ "@"
          ++ db.host ++ ":" ++ db.port ++ "/mlflow") := by
  obtain ⟨hest, val, hval, hsp, hu, hp⟩ := getRelationalDbData_ok_inv _ _ _ h
  refine ⟨val, hval, hu, hp, ?_⟩
  have hlookup : List.lookup "MLFLOW_TRACKING_URI" (getEnvVars db os) =
      some ("mysql+pymysql://" ++ db.username ++ ":" ++ db.password ++ "@"
        ++ db.host ++ ":" ++ db.port ++ "/" ++ databaseName) := rfl
  rw [hlookup, hu, hp]
  congr 1
  simp only [String.append_assoc]
  congr 2

theorem c3_witness :
    ∃ val, firstNonEmpty [some sampleVal] = some val ∧
      (⟨"db-host", "3306", "admin", "pw"⟩ : DbData).username = val.username ∧
      (⟨"db-host", "3306", "admin", "pw"⟩ : DbData).password = val.password ∧
      List.lookup "MLFLOW_TRACKING_URI"
          (getEnvVars ⟨"db-host", "3306", "admin", "pw"⟩ sampleOs) =
        some ("mysql+pymysql://" ++ val.username ++ ":" ++ val.password ++ "@"
          ++ (⟨"db-host", "3306", "admin", "pw"⟩ : DbData).host ++ ":"
          ++ (⟨"db-host", "3306", "admin", "pw"⟩ : DbData).port ++ "/mlflow") :=
  c3_tracking_uri sampleOs true [some sampleVal] ⟨"db-host", "3306", "admin", "pw"⟩ rfl

/-- C1: the reconciliation handler is idempotent on the container. After a
successful pass, rerunning `_on_event` with unchanged inputs adds no
layer, performs no replan, leaves the applied plan identical, and ends
active again; and in general `_update_layer` is a no-op — no layer add, no
replan, no status change at all — whenever the desired layer's services
equal the current plan's services. -/
theorem c1_reconcile_idempotent (inp : Inputs) (w w1 : World) (effs : List Effect)
    (h : onEventInner inp w = (w1, effs, none)) :
    (∀ (cfg : Config) (envs : List (String × String)) (root : String)
       (rpe : Option String) (w' : World),
       w'.planServices = charmedMlflowLayer envs root cfg.mlflow_port →
       updateLayer cfg envs root rpe w' = (w', [], none)) ∧
    (onEvent inp (onEvent inp w).world).world.planServices =
      (onEvent inp w).world.planServices ∧
    (∀ l s, Effect.addLayer l s ∉ (onEvent inp (onEvent inp w).world).effects) ∧
    Effect.replan ∉ (onEvent inp (onEvent inp w).world).effects ∧
    (onEvent inp (onEvent inp w).world).world.status = ⟨.active, ""⟩ := by
  obtain ⟨hL, i, os, db, validated, hI, hOs, hDb, hV, hCB, hplan, -⟩ :=
    onEventInner_ok_inv _ _ _ _ h
  have hfirst : onEvent inp w = ⟨{ w1 with status := ⟨.active, ""⟩ }, effs, none⟩ := by
    simp [onEvent, h]
  have hmemA : ∀ (b : Bool) (r l : String) (s : Services),
      Effect.addLayer l s ∉ sendManifestsEffects b r := by
    intro b r l s
    cases b <;> simp [sendManifestsEffects]
  have hmemR : ∀ (b : Bool) (r : String), Effect.replan ∉ sendManifestsEffects b r := by
    intro b r
    cases b <;> simp [sendManifestsEffects]
  have hplan2 : ({ w1 with status := (⟨.active, ""⟩ : Status) } : World).planServices =
      charmedMlflowLayer (getEnvVars db os)
        inp.config.default_artifact_root inp.config.mlflow_port := hplan
  refine ⟨fun cfg envs root rpe w' hw' => updateLayer_noop _ _ _ _ _ hw', ?_⟩
  rw [hfirst]
  cases hval : validated with
  | true =>
    have hsecond :
        onEventInner inp { w1 with status := (⟨.active, ""⟩ : Status) } =
          ({ w1 with status := (⟨.active, ""⟩ : Status) },
           sendManifestsEffects i.secretsRelation "secrets"
             ++ sendManifestsEffects i.podDefaultsRelation "pod-defaults",
           none) := by
      have hAB := afterBucket_already_converged inp i (getEnvVars db os)
        inp.config.default_artifact_root
        { w1 with status := (⟨.active, ""⟩ : Status) } [] hplan2
      rw [hval] at hV
      simp [onEventInner, checkLeader, getInterfaces, getObjectStorageData,
        hL, hI, hOs, hDb, hV]
      simpa using hAB
    constructor
    · simp [onEvent, hsecond]
    refine ⟨?_, ?_, ?_⟩
    · intro l s
      simp only [onEvent, hsecond]
      simp only [PassResult.mk.injEq, List.mem_append]
      rintro (hm | hm)
      · exact hmemA _ _ _ _ hm
      · exact hmemA _ _ _ _ hm
    · simp only [onEvent, hsecond]
      simp only [List.mem_append]
      rintro (hm | hm)
      · exact hmemR _ _ hm
      · exact hmemR _ _ hm
    · simp [onEvent, hsecond]
  | false =>
    have hCBnone : inp.createBucketError = none := hCB hval
    have hsecond :
        onEventInner inp { w1 with status := (⟨.active, ""⟩ : Status) } =
          ({ w1 with status := (⟨.active, ""⟩ : Status)
                   , createdBuckets := w1.createdBuckets
                       ++ [inp.config.default_artifact_root] },
           [Effect.createBucket inp.config.default_artifact_root]
             ++ (sendManifestsEffects i.secretsRelation "secrets"
               ++ sendManifestsEffects i.podDefaultsRelation "pod-defaults"),
           none) := by
      have hAB := afterBucket_already_converged inp i (getEnvVars db os)
        inp.config.default_artifact_root
        { w1 with status := (⟨.active, ""⟩ : Status)
                , createdBuckets := w1.createdBuckets
                    ++ [inp.config.default_artifact_root] }
        [Effect.createBucket inp.config.default_artifact_root] hplan
      rw [hval] at hV
      simp [onEventInner, checkLeader, getInterfaces, getObjectStorageData,
        hL, hI, hOs, hDb, hV, hCBnone, createDefaultS3Bucket]
      simpa using hAB
    constructor
    · simp [onEvent, hsecond]
    refine ⟨?_, ?_, ?_⟩
    · intro l s
      simp only [onEvent, hsecond]
      simp only [List.mem_cons, List.mem_append]
      rintro (hm | hm | hm)
      · exact absurd hm (by simp)
      · exact hmemA _ _ _ _ hm
      · exact hmemA _ _ _ _ hm
    · simp only [onEvent, hsecond]
      simp only [List.mem_cons, List.mem_append]
      rintro (hm | hm | hm)
      · exact absurd hm (by simp)
      · exact hmemR _ _ hm
      · exact hmemR _ _ hm
    · simp [onEvent, hsecond]

theorem c1_witness :
    updateLayer sampleCfg
        (getEnvVars ⟨"db-host", "3306", "admin", "pw"⟩ sampleOs) "mlflow" none
        (onEvent sampleInputs w0).world =
      ((onEvent sampleInputs w0).world, [], none) ∧
    (onEvent sampleInputs (onEvent sampleInputs w0).world).world.planServices =
      (onEvent sampleInputs w0).world.planServices ∧
    (∀ l s, Effect.addLayer l s ∉
      (onEvent sampleInputs (onEvent sampleInputs w0).world).effects) ∧
    Effect.replan ∉ (onEvent sampleInputs (onEvent sampleInputs w0).world).effects ∧
    (onEvent sampleInputs (onEvent sampleInputs w0).world).world.status =
      ⟨.active, ""⟩ :=
  (fun H =>
    ⟨H.1 sampleCfg (getEnvVars ⟨"db-host", "3306", "admin", "pw"⟩ sampleOs)
        "mlflow" none (onEvent sampleInputs w0).world (by rfl),
     H.2.1, H.2.2.1, H.2.2.2.1, H.2.2.2.2⟩)
    (c1_reconcile_idempotent sampleInputs w0 (onEventInner sampleInputs w0).1
      (onEventInner sampleInputs w0).2.1 rfl)

end Mlflow
